import Mathlib

/-!
A shallow embedding of `src/model.py` (the `T5QaModel` Lightning module of a
T5 question-answering fine-tuning harness), and proofs about its behaviour.

Modelling conventions:
* 2-D tensors become `List (List Int)` (a batch of rows); token ids and the
  `-100` ignore sentinel live in `Int`.
* Floating-point scalars (losses, rouge F-measures, `np.mean`) are modelled as
  exact rationals (`Rat`).
* External collaborators (the pretrained model's `forward` and `generate`, the
  tokenizer's `decode`, the rouge library's per-pair scorer and its
  `BootstrapAggregator`, and `QaDataset.trim_seq2seq_batch` from the sibling
  `dataset.py` module) are black boxes: they appear as function-valued
  parameters collected in the `Externals` structure, and theorems quantify
  over them.
* Python `dict`s that the step functions build and return become insertion
  ordered association lists `List (String × PyVal)`.
-/

/-- Heterogeneous values stored in the result records the step functions
return: scalar losses / metrics, the 1-tuple `(loss,)` that `test_step`
stores verbatim, and the decoded string lists `preds` / `target`. -/
inductive PyVal where
  | num (q : Rat)
  | numTuple (l : List Rat)
  | strList (l : List String)
deriving DecidableEq, Repr

/-- `lmap` from model.py: `list(map(f, x))`. -/
def lmap {α β : Type} (f : α → β) (x : List α) : List β :=
  List.map f x

/-- `ROUGE_KEYS = ["rouge1", "rouge2", "rougeL"]` from model.py. -/
def ROUGE_KEYS : List String := ["rouge1", "rouge2", "rougeL"]

/-- One rouge score object of the rouge library: a named tuple of
precision, recall and F-measure. -/
structure RougeScoreV where
  precision : Rat
  «recall» : Rat
  fmeasure : Rat
deriving DecidableEq, Repr

/-- The dict `rouge_scorer.RougeScorer(ROUGE_KEYS, use_stemmer=True).score`
returns: one `RougeScoreV` for each of the three requested metric names. -/
structure ScoreTriple where
  rouge1 : RougeScoreV
  rouge2 : RougeScoreV
  rougeL : RougeScoreV
deriving DecidableEq, Repr

/-- One confidence interval of `BootstrapAggregator.aggregate`: low / mid /
high percentile estimates, each a full score object. -/
structure AggregateBound where
  low : RougeScoreV
  mid : RougeScoreV
  high : RougeScoreV
deriving DecidableEq, Repr

/-- The result dict of `BootstrapAggregator.aggregate` when scores for the
three metrics of `ROUGE_KEYS` have been added: one interval per metric. -/
structure AggTriple where
  rouge1 : AggregateBound
  rouge2 : AggregateBound
  rougeL : AggregateBound
deriving DecidableEq, Repr

/-- A batch as produced by the dataset adapter: three aligned 2-D tensors. -/
structure Batch where
  source_ids : List (List Int)
  source_mask : List (List Int)
  target_ids : List (List Int)
deriving DecidableEq, Repr

/-- `T5QaModel.calculate_rouge` from model.py, parameterised by the external
rouge library's per-pair scorer `score` and aggregator `aggregate`.

The body follows the source exactly: it iterates
`zip(reference_lns, output_lns)` — Python's `zip`, which silently stops at
the shorter of the two lists and never checks the lengths — scores each
pair, adds the scores to the aggregator, aggregates, and projects
`v.mid.fmeasure` for each key of the result dict. No operation in the body
raises on a length mismatch.

The result dict of `BootstrapAggregator.aggregate()` holds exactly the
metrics for which scores were added: when the zip produced no pairs no
score is ever added and `aggregate()` returns the empty dict, so the
function returns a keyless mapping; when at least one pair was scored every
added score dict carries all three `ROUGE_KEYS` (the scorer is constructed
with them), so the result has exactly those three keys, with the black-box
`aggregate` supplying the three intervals. -/
def calculate_rouge (score : String → String → ScoreTriple)
    (aggregate : List ScoreTriple → AggTriple)
    (output_lns : List String) (reference_lns : List String) :
    List (String × Rat) :=
  let pairScores := (reference_lns.zip output_lns).map
    (fun p => score p.1 p.2)
  if pairScores.isEmpty then []
  else
    let result := aggregate pairScores
    [("rouge1", result.rouge1.mid.fmeasure),
     ("rouge2", result.rouge2.mid.fmeasure),
     ("rougeL", result.rougeL.mid.fmeasure)]

/-- Elementwise boolean mask `t == v` on a 2-D tensor, as in
`y[:, 1:] == pad_token_id`. -/
def eqMask (t : List (List Int)) (v : Int) : List (List Bool) :=
  t.map (List.map (fun x => decide (x = v)))

/-- In-place masked assignment `t[mask] = v` on a 2-D tensor: every position
where the mask is true receives `v`. -/
def maskedFill (t : List (List Int)) (mask : List (List Bool)) (v : Int) :
    List (List Int) :=
  List.zipWith
    (fun trow mrow => List.zipWith (fun x m => if m then v else x) trow mrow)
    t mask

/-- `T5QaModel._step` from model.py, parameterised by the external model's
forward pass (polymorphic in the loss value it returns, so that a recording
forward function can observe exactly the tensors `_step` feeds it):

* `y_ids = y[:, :-1].contiguous()` — the target with its last column dropped;
* `lm_labels = y[:, 1:].clone()` then `lm_labels[y[:, 1:] == pad] = -100` —
  the target shifted left by one with every pad position replaced by `-100`;
* one forward call with `(source_ids, source_mask, y_ids, lm_labels)`, whose
  first output is the loss, returned as the 1-tuple `(loss,)`. -/
def _step {L : Type}
    (forward : List (List Int) → List (List Int) → List (List Int) →
      List (List Int) → L)
    (pad_token_id : Int) (batch : Batch) : List L :=
  let y := batch.target_ids
  let y_ids := y.map List.dropLast
  let lm_labels := maskedFill (y.map (List.drop 1))
    (eqMask (y.map (List.drop 1)) pad_token_id) (-100)
  [forward batch.source_ids batch.source_mask y_ids lm_labels]

/-- The external collaborators of the step functions, as black boxes:
the trim helper of the sibling `dataset.py` module, the pretrained model's
decoding routine (once with `_generative_step`'s arguments and once with
`test_step`'s beam-search arguments), the tokenizer's per-sequence decode
(with `skip_special_tokens=True, clean_up_tokenization_spaces=True`; the
batch variant `batch_decode` is its elementwise map), the rouge library's
scorer and aggregator, the model's forward pass returning a scalar loss,
and the tokenizer's pad token id. -/
structure Externals where
  trim : Batch → Int → List (List Int) × List (List Int) × List (List Int)
  generate : List (List Int) → List (List Int) → List (List Int)
  generateTest : List (List Int) → List (List Int) → List (List Int)
  decode : List Int → String
  score : String → String → ScoreTriple
  aggregate : List ScoreTriple → AggTriple
  forward : List (List Int) → List (List Int) → List (List Int) →
    List (List Int) → Rat
  pad_token_id : Int

/-- `self.loss_names = ["loss"]` from `T5QaModel.__init__`. -/
def loss_names : List String := ["loss"]

/-- `T5QaModel.ids_to_clean_text`: batch-decode the id sequences and strip
each resulting string (`lmap(str.strip, gen_text)`). -/
def ids_to_clean_text (E : Externals) (generated_ids : List (List Int)) :
    List String :=
  lmap String.trim (generated_ids.map E.decode)

/-- Python `dict.update(kvs)` on an insertion-ordered association list: a key
already present keeps its position and receives the new value, a new key is
appended at the end. -/
def dictUpdate (d : List (String × PyVal)) (kvs : List (String × PyVal)) :
    List (String × PyVal) :=
  kvs.foldl
    (fun acc kv =>
      if acc.any (fun p => p.1 == kv.1) then
        acc.map (fun p => if p.1 == kv.1 then kv else p)
      else acc ++ [kv])
    d

/-- `np.mean` on a list of rationals: the sum divided by the length.
(NumPy's mean of an empty array is NaN; theorems about it therefore assume
the list is nonempty.) -/
def npMean (l : List Rat) : Rat :=
  l.sum / (l.length : Rat)

/-- `T5QaModel._generative_step` from model.py:
trim the batch, generate, decode predictions and references, compute the
loss with `_step` on the *untrimmed* batch, compute rouge, compute the mean
generated length, and assemble the result dict
`{"loss": …}` updated with `summ_len`, `preds`, `target` and the three rouge
entries. -/
def _generative_step (E : Externals) (batch : Batch) :
    List (String × PyVal) :=
  let pad_token_id := E.pad_token_id
  let (source_ids, source_mask, y) := E.trim batch pad_token_id
  let generated_ids := E.generate source_ids source_mask
  let preds := ids_to_clean_text E generated_ids
  let target := ids_to_clean_text E y
  let loss_tensors := _step E.forward pad_token_id batch
  let base_metrics := (loss_names.zip loss_tensors).map
    (fun p => (p.1, PyVal.num p.2))
  let rouge := calculate_rouge E.score E.aggregate preds target
  let summ_len := npMean (lmap (fun g => ((List.length g : Int) : Rat))
    generated_ids)
  dictUpdate base_metrics
    ([("summ_len", PyVal.num summ_len),
      ("preds", PyVal.strList preds),
      ("target", PyVal.strList target)] ++
     rouge.map (fun kv => (kv.1, PyVal.num kv.2)))

/-- A value of the dict `training_step` returns: the scalar loss under
`"loss"`, and the nested log dict under `"log"`. -/
inductive TrainVal where
  | scalar (l : Rat)
  | logDict (d : List (String × Rat))
deriving DecidableEq, Repr

/-- `T5QaModel.training_step` from model.py: run `_step`, zip the losses
with `loss_names` into a log dict, and return
`{"loss": loss_tensors[0], "log": logs}`. The Python indexing
`loss_tensors[0]` raises on an empty tuple, hence the `Option` result. -/
def training_step (forward : List (List Int) → List (List Int) →
      List (List Int) → List (List Int) → Rat)
    (pad_token_id : Int) (batch : Batch) (batch_idx : Nat) :
    Option (List (String × TrainVal)) :=
  let loss_tensors := _step forward pad_token_id batch
  let logs := loss_names.zip loss_tensors
  (loss_tensors.get? 0).map
    (fun l0 => [("loss", TrainVal.scalar l0), ("log", TrainVal.logDict logs)])

/-- `T5QaModel.validation_step` from model.py: `return self._generative_step(batch)`. -/
def validation_step (E : Externals) (batch : Batch) (batch_idx : Nat) :
    List (String × PyVal) :=
  _generative_step E batch

/-- `T5QaModel.test_step` from model.py: trim the batch, generate with the
beam-search arguments, decode predictions and references with
`self.tokenizer.decode` per sequence, run `_step` on the untrimmed batch —
note that the *whole tuple* `(loss,)` is stored — and return
`{"val_loss": loss, "preds": preds, "target": target}`. -/
def test_step (E : Externals) (batch : Batch) (batch_idx : Nat) :
    List (String × PyVal) :=
  let pad_token_id := E.pad_token_id
  let (source_ids, source_mask, y) := E.trim batch pad_token_id
  let generated_ids := E.generateTest source_ids source_mask
  let preds := generated_ids.map E.decode
  let target := y.map E.decode
  let loss := _step E.forward pad_token_id batch
  [("val_loss", PyVal.numTuple loss),
   ("preds", PyVal.strList preds),
   ("target", PyVal.strList target)]

/-- The tokenizer state visible to `T5QaModel.__init__`: its end-of-sequence
token id, the registered end-of-sequence token text, and its length
(`len(self.tokenizer)`, the vocabulary size). -/
structure Tokenizer where
  eos_token_id : Int
  eos_token : String
  length : Nat
deriving DecidableEq, Repr

/-- The model state the eos fix can touch: the number of rows of the token
embedding table (`resize_token_embeddings` sets it). -/
structure ModelEmb where
  token_embedding_rows : Nat
deriving DecidableEq, Repr

/-- The tokenizer/model pair held by the module after construction. -/
structure InitState where
  tokenizer : Tokenizer
  model : ModelEmb
deriving DecidableEq, Repr

/-- The eos-token fix of `T5QaModel.__init__` (model.py lines 63–67),
parameterised by the external
`tokenizer.add_special_tokens({'eos_token': t})`, a black box that registers
the token `t` as the tokenizer's eos token:

    if self.tokenizer.eos_token_id == 1:
        self.tokenizer.add_special_tokens({'eos_token': '[EOS]'})
        self.model.resize_token_embeddings(len(self.tokenizer))
-/
def eosFix (add_special_tokens : Tokenizer → String → Tokenizer)
    (st : InitState) : InitState :=
  if st.tokenizer.eos_token_id = 1 then
    let tok := add_special_tokens st.tokenizer "[EOS]"
    ⟨tok, ⟨tok.length⟩⟩
  else st

/-- The hyperparameter namespace, restricted to the options
`add_model_specific_args` registers. -/
structure HParams where
  model_name_or_path : String
  config_name : String
  tokenizer_name : String
  cache_dir : String
  input_dir : String
  max_grad_norm : Rat
  gradient_accumulation_steps : Nat
  learning_rate : Rat
  weight_decay : Rat
  adam_epsilon : Rat
  epochs : Nat
  train_batch_size : Nat
  eval_batch_size : Nat
deriving DecidableEq, Repr

/-- The constructor arguments of `torch.optim.Adam` that
`configure_optimizers` passes: the parameter collection (abstract, of
type `P`) and the learning rate; every other Adam option is left at the
library default. -/
structure AdamSpec (P : Type) where
  params : P
  lr : Rat
deriving DecidableEq, Repr

/-- The constructor arguments of
`torch.optim.lr_scheduler.CosineAnnealingLR` that `configure_optimizers`
passes: the wrapped optimizer and the period `T_max`. -/
structure CosineAnnealingLRSpec (P : Type) where
  optimizer : AdamSpec P
  T_max : Nat
deriving DecidableEq, Repr

/-- `T5QaModel.configure_optimizers` from model.py:

    optimizer = optim.Adam(self.parameters(), lr=self.hparams.learning_rate)
    scheduler = optim.lr_scheduler.CosineAnnealingLR(optimizer, T_max=10)
    return [optimizer], [scheduler]
-/
def configure_optimizers {P : Type} (parameters : P) (hparams : HParams) :
    List (AdamSpec P) × List (CosineAnnealingLRSpec P) :=
  let optimizer : AdamSpec P := ⟨parameters, hparams.learning_rate⟩
  let scheduler : CosineAnnealingLRSpec P := ⟨optimizer, 10⟩
  ([optimizer], [scheduler])

/-- The constructor arguments of `torch.utils.data.DataLoader` that
`get_dataloader` passes (the dataset and collate function are determined by
`type_path` and are kept as the split name here). -/
structure DataLoaderSpec where
  type_path : String
  batch_size : Nat
  shuffle : Bool
  num_workers : Nat
  pin_memory : Bool
deriving DecidableEq, Repr

/-- `T5QaModel.get_dataloader` from model.py, with the platform name
(`os.name`) passed explicitly: `num_workers` starts at 2 and is set to 0
when `os.name == 'nt'` (Windows), then the `DataLoader` is constructed with
`pin_memory=True`. -/
def get_dataloader (os_name : String) (type_path : String)
    (batch_size : Nat) (shuffle : Bool) : DataLoaderSpec :=
  let num_workers : Nat := 2
  let num_workers := if os_name == "nt" then 0 else num_workers
  ⟨type_path, batch_size, shuffle, num_workers, true⟩

/-- A heap of 2-D integer tensors, for stating which tensors a step mutates:
cells are addressed by allocation index. -/
structure Store where
  cells : List (List (List Int))
deriving DecidableEq, Repr

/-- Read the tensor held in cell `r`. -/
def Store.read (s : Store) (r : Nat) : List (List Int) :=
  s.cells.getD r []

/-- Allocate a fresh cell holding `v`; returns the new store and the new
cell's address. -/
def Store.alloc (s : Store) (v : List (List Int)) : Store × Nat :=
  (⟨s.cells ++ [v]⟩, s.cells.length)

/-- Overwrite cell `r` with `v` (an in-place tensor update). -/
def Store.write (s : Store) (r : Nat) (v : List (List Int)) : Store :=
  ⟨s.cells.set r v⟩

/-- A batch whose three tensors live in the store. -/
structure BatchRef where
  source_ids : Nat
  source_mask : Nat
  target_ids : Nat
deriving DecidableEq, Repr

/-- `T5QaModel._step` again, this time with PyTorch's aliasing made
explicit through the tensor store, so that the absence of mutation of the
batch can be stated:

* `y[:, :-1].contiguous()` materialises a fresh tensor (the column slice is
  not contiguous, so `.contiguous()` copies) — one `alloc`;
* `y[:, 1:].clone()` copies — a second `alloc`;
* `lm_labels[y[:, 1:] == pad_token_id] = -100` writes in place into the
  cloned cell — a `write` to that cell and to no other. -/
def _stepStore {L : Type}
    (forward : List (List Int) → List (List Int) → List (List Int) →
      List (List Int) → L)
    (pad_token_id : Int) (st0 : Store) (b : BatchRef) : L × Store :=
  let y := st0.read b.target_ids
  let a1 := st0.alloc (y.map List.dropLast)
  let st1 := a1.1
  let y_ids := a1.2
  let a2 := st1.alloc (y.map (List.drop 1))
  let st2 := a2.1
  let lm_labels := a2.2
  let st3 := st2.write lm_labels
    (maskedFill (st2.read lm_labels)
      (eqMask (y.map (List.drop 1)) pad_token_id) (-100))
  (forward (st3.read b.source_ids) (st3.read b.source_mask)
    (st3.read y_ids) (st3.read lm_labels), st3)

/-- Apply an index permutation `p` (a rearrangement of `range n`) to a
list: position `j` of the result holds element `p[j]` of the input. -/
def applyPerm {α : Type} (p : List Nat) (d : α) (l : List α) : List α :=
  p.map (fun i => l.getD i d)

/-- A zero rouge score object, for concrete witnesses. -/
def zeroScore : RougeScoreV := ⟨0, 0, 0⟩

/-- A zero aggregation interval, for concrete witnesses. -/
def zeroBound : AggregateBound := ⟨zeroScore, zeroScore, zeroScore⟩

/-- A zero aggregate, for concrete witnesses. -/
def zeroAgg : AggTriple := ⟨zeroBound, zeroBound, zeroBound⟩

/-- Concrete externals for witnesses: trimming returns the batch fields
unchanged, generation produces three sequences of lengths 5, 7 and 9, and
the remaining collaborators are constant. -/
def witnessExternals : Externals :=
  ⟨fun b _ => (b.source_ids, b.source_mask, b.target_ids),
   fun _ _ => [List.replicate 5 1, List.replicate 7 1, List.replicate 9 1],
   fun _ _ => [],
   fun _ => "",
   fun _ _ => ⟨zeroScore, zeroScore, zeroScore⟩,
   fun _ => zeroAgg,
   fun _ _ _ _ => 0,
   0⟩

/-- A concrete scorer for witnesses whose value depends on its inputs:
the F-measure records the two string lengths. -/
def lenScore (reference_ln output_ln : String) : ScoreTriple :=
  ⟨⟨0, 0, (reference_ln.length * 10 + output_ln.length : Nat)⟩,
   zeroScore, zeroScore⟩

/-- A concrete aggregator for witnesses that depends only on the multiset
of added scores: every interval field carries the sum of the added
rouge1 F-measures. -/
def sumAgg (s : List ScoreTriple) : AggTriple :=
  let f := (s.map (fun x => x.rouge1.fmeasure)).sum
  let b : AggregateBound := ⟨⟨0, 0, f⟩, ⟨0, 0, f⟩, ⟨0, 0, f⟩⟩
  ⟨b, b, b⟩

/-! ### Helper lemmas -/

/-- Masked fill with the equality mask of the tensor itself is an
elementwise conditional replacement. -/
theorem maskedFill_eqMask (t : List (List Int)) (pad v : Int) :
    maskedFill t (eqMask t pad) v =
      t.map (List.map (fun x => if x = pad then v else x)) := by
  induction t with
  | nil => rfl
  | cons row rows ih =>
    simp only [maskedFill, eqMask, List.map_cons, List.zipWith_cons_cons]
    refine congrArg₂ List.cons ?_ ih
    rw [List.zipWith_map_right, List.zipWith_same]
    simp

/-- Python's `zip` truncates both lists to the shorter length. -/
theorem zip_eq_zip_take {α β : Type} (r : List α) (o : List β) :
    r.zip o = (r.take o.length).zip (o.take r.length) := by
  induction r generalizing o with
  | nil => simp
  | cons a r ih =>
    cases o with
    | nil => simp
    | cons b o => simpa using ih o

/-- Indexing a pair of equal-length lists over `range n` is the same as
zipping them. -/
theorem range_map_getD_zip {α β γ : Type} (f : α → β → γ) (da : α) (db : β) :
    ∀ (n : Nat) (r : List α) (o : List β), r.length = n → o.length = n →
      (List.range n).map (fun i => f (r.getD i da) (o.getD i db)) =
        (r.zip o).map (fun pr => f pr.1 pr.2) := by
  intro n
  induction n with
  | zero =>
    intro r o hr ho
    rw [List.length_eq_zero.mp hr, List.length_eq_zero.mp ho]
    rfl
  | succ n ih =>
    intro r o hr ho
    cases r with
    | nil => simp at hr
    | cons a r =>
      cases o with
      | nil => simp at ho
      | cons b o =>
        simp only [List.length_cons, Nat.succ.injEq] at hr ho
        simp only [List.range_succ_eq_map, List.map_cons, List.map_map,
          List.zip_cons_cons, List.getD_cons_zero]
        refine congrArg₂ List.cons rfl ?_
        rw [← ih r o hr ho]
        rfl

/-- Reading an already-allocated cell is unaffected by a fresh allocation. -/
theorem Store.read_alloc_lt (s : Store) (v : List (List Int)) (r : Nat)
    (h : r < s.cells.length) : (s.alloc v).1.read r = s.read r := by
  simp only [Store.alloc, Store.read]
  exact List.getD_append _ _ _ _ h

/-- Reading the cell a fresh allocation returns yields the allocated value. -/
theorem Store.read_alloc_self (s : Store) (v : List (List Int)) :
    (s.alloc v).1.read (s.alloc v).2 = v := by
  simp only [Store.alloc, Store.read]
  rw [List.getD_append_right _ _ _ _ (le_refl _)]
  simp

/-- Reading a cell other than the written one is unaffected by a write. -/
theorem Store.read_write_ne (s : Store) (i r : Nat) (v : List (List Int))
    (h : i ≠ r) : (s.write i v).read r = s.read r := by
  simp only [Store.write, Store.read]
  simp [List.getD_eq_getElem?_getD, List.getElem?_set_ne h]

/-- Reading the written cell yields the written value (when it exists). -/
theorem Store.read_write_self (s : Store) (i : Nat) (v : List (List Int))
    (h : i < s.cells.length) : (s.write i v).read i = v := by
  simp only [Store.write, Store.read]
  simp [List.getD_eq_getElem?_getD, List.getElem?_set_self, h]

/-- After two appends and an overwrite of the second appended cell, every
index below the original length reads its original value. -/
theorem getD_set_append_lt {α : Type} (c : List α) (v1 v2 mv d : α)
    (r : Nat) (hr : r < c.length) :
    (((c ++ [v1]) ++ [v2]).set ((c ++ [v1]).length) mv).getD r d =
      c.getD r d := by
  rw [List.getD_eq_getElem?_getD,
    List.getElem?_set_ne (by simp only [List.length_append]; omega),
    ← List.getD_eq_getElem?_getD,
    List.getD_append _ _ _ _ (by simp only [List.length_append]; omega),
    List.getD_append _ _ _ _ hr]

/-- The first appended cell is untouched by the overwrite of the second. -/
theorem getD_set_append_mid {α : Type} (c : List α) (v1 v2 mv d : α) :
    (((c ++ [v1]) ++ [v2]).set ((c ++ [v1]).length) mv).getD c.length d =
      v1 := by
  rw [List.getD_eq_getElem?_getD,
    List.getElem?_set_ne (by simp),
    ← List.getD_eq_getElem?_getD,
    List.getD_append _ _ _ _ (by simp),
    List.getD_append_right _ _ _ _ (le_refl _)]
  simp

/-- The overwritten second appended cell reads the written value. -/
theorem getD_set_append_last {α : Type} (c : List α) (v1 v2 mv d : α) :
    (((c ++ [v1]) ++ [v2]).set ((c ++ [v1]).length) mv).getD
      ((c ++ [v1]).length) d = mv := by
  rw [List.getD_eq_getElem?_getD, List.getElem?_set_self (by simp)]
  rfl

/-- Reading the second appended cell before any overwrite. -/
theorem getD_append_self2 {α : Type} (c : List α) (v1 v2 d : α) :
    ((c ++ [v1]) ++ [v2]).getD ((c ++ [v1]).length) d = v2 := by
  rw [List.getD_append_right _ _ _ _ (le_refl _)]
  simp

/-- Permuted lists are empty together. -/
theorem perm_isEmpty {α : Type} {l1 l2 : List α} (h : l1.Perm l2) :
    l1.isEmpty = l2.isEmpty := by
  rcases l1 with _ | ⟨a, t⟩
  · rcases l2 with _ | ⟨b, u⟩
    · rfl
    · simpa using h.symm.eq_nil
  · rcases l2 with _ | ⟨b, u⟩
    · simpa using h.eq_nil
    · rfl

/-- The mapping `calculate_rouge` returns has one of two shapes: the three
metric entries (when the zip produced at least one pair) or nothing. -/
theorem calculate_rouge_shape (score : String → String → ScoreTriple)
    (aggregate : List ScoreTriple → AggTriple)
    (output_lns reference_lns : List String) :
    (∃ q1 q2 q3 : Rat,
      calculate_rouge score aggregate output_lns reference_lns =
        [("rouge1", q1), ("rouge2", q2), ("rougeL", q3)]) ∨
    calculate_rouge score aggregate output_lns reference_lns = [] := by
  simp only [calculate_rouge]
  split
  · exact Or.inr rfl
  · exact Or.inl ⟨_, _, _, rfl⟩

/-- The evaluation record with its pieces spelled out: the base dict
`{"loss": …}` updated with the three fixed entries and the rouge
mapping. -/
theorem generative_step_eq (E : Externals) (batch : Batch) :
    _generative_step E batch =
      dictUpdate
        [("loss", PyVal.num (E.forward batch.source_ids batch.source_mask
          (batch.target_ids.map List.dropLast)
          (maskedFill (batch.target_ids.map (List.drop 1))
            (eqMask (batch.target_ids.map (List.drop 1)) E.pad_token_id)
            (-100))))]
        ([("summ_len", PyVal.num (npMean
            (lmap (fun g => ((g.length : Int) : Rat))
              (E.generate (E.trim batch E.pad_token_id).1
                (E.trim batch E.pad_token_id).2.1)))),
          ("preds", PyVal.strList (ids_to_clean_text E
            (E.generate (E.trim batch E.pad_token_id).1
              (E.trim batch E.pad_token_id).2.1))),
          ("target", PyVal.strList (ids_to_clean_text E
            (E.trim batch E.pad_token_id).2.2))] ++
         (calculate_rouge E.score E.aggregate
            (ids_to_clean_text E
              (E.generate (E.trim batch E.pad_token_id).1
                (E.trim batch E.pad_token_id).2.1))
            (ids_to_clean_text E (E.trim batch E.pad_token_id).2.2)).map
           (fun kv => (kv.1, PyVal.num kv.2))) := rfl

/-- The evaluation record in full, in its two shapes: with the three rouge
entries appended (at least one pair was scored) or without them (the zip of
decoded references and predictions was empty). -/
theorem generative_step_record_cases (E : Externals) (batch : Batch) :
    (∃ q1 q2 q3 : Rat, _generative_step E batch =
      [("loss", PyVal.num (E.forward batch.source_ids batch.source_mask
          (batch.target_ids.map List.dropLast)
          (maskedFill (batch.target_ids.map (List.drop 1))
            (eqMask (batch.target_ids.map (List.drop 1)) E.pad_token_id)
            (-100)))),
       ("summ_len", PyVal.num (npMean
          (lmap (fun g => ((g.length : Int) : Rat))
            (E.generate (E.trim batch E.pad_token_id).1
              (E.trim batch E.pad_token_id).2.1)))),
       ("preds", PyVal.strList (ids_to_clean_text E
          (E.generate (E.trim batch E.pad_token_id).1
            (E.trim batch E.pad_token_id).2.1))),
       ("target", PyVal.strList (ids_to_clean_text E
          (E.trim batch E.pad_token_id).2.2)),
       ("rouge1", PyVal.num q1), ("rouge2", PyVal.num q2),
       ("rougeL", PyVal.num q3)]) ∨
    _generative_step E batch =
      [("loss", PyVal.num (E.forward batch.source_ids batch.source_mask
          (batch.target_ids.map List.dropLast)
          (maskedFill (batch.target_ids.map (List.drop 1))
            (eqMask (batch.target_ids.map (List.drop 1)) E.pad_token_id)
            (-100)))),
       ("summ_len", PyVal.num (npMean
          (lmap (fun g => ((g.length : Int) : Rat))
            (E.generate (E.trim batch E.pad_token_id).1
              (E.trim batch E.pad_token_id).2.1)))),
       ("preds", PyVal.strList (ids_to_clean_text E
          (E.generate (E.trim batch E.pad_token_id).1
            (E.trim batch E.pad_token_id).2.1))),
       ("target", PyVal.strList (ids_to_clean_text E
          (E.trim batch E.pad_token_id).2.2))] := by
  rcases calculate_rouge_shape E.score E.aggregate
      (ids_to_clean_text E (E.generate (E.trim batch E.pad_token_id).1
        (E.trim batch E.pad_token_id).2.1))
      (ids_to_clean_text E (E.trim batch E.pad_token_id).2.2) with
    ⟨q1, q2, q3, hs⟩ | hs
  · exact Or.inl ⟨q1, q2, q3, by rw [generative_step_eq, hs]; rfl⟩
  · exact Or.inr (by rw [generative_step_eq, hs]; rfl)

/-! ### Claim theorems -/

/-- C9: `configure_optimizers` returns exactly one Adam optimizer built from
the model parameters and the learning rate, paired with one cosine-annealing
schedule of fixed period `T_max = 10`; two configurations that differ only
in `weight_decay`, `adam_epsilon`, `max_grad_norm` or `epochs` produce
identical optimizer and scheduler settings. -/
theorem configure_optimizers_adam_cosine {P : Type} (parameters : P)
    (hp : HParams) :
    configure_optimizers parameters hp =
      ([⟨parameters, hp.learning_rate⟩],
       [⟨⟨parameters, hp.learning_rate⟩, 10⟩]) ∧
    ∀ (w e m : Rat) (n : Nat),
      configure_optimizers parameters
          { hp with weight_decay := w, adam_epsilon := e,
                    max_grad_norm := m, epochs := n } =
        configure_optimizers parameters hp :=
  ⟨rfl, fun _ _ _ _ => rfl⟩

/-- C10: `get_dataloader` uses `num_workers = 0` when the platform is
Windows (`os.name == 'nt'`) and `num_workers = 2` on every other
platform. -/
theorem get_dataloader_num_workers (os_name type_path : String)
    (batch_size : Nat) (shuffle : Bool) :
    (os_name = "nt" →
      (get_dataloader os_name type_path batch_size shuffle).num_workers = 0) ∧
    (os_name ≠ "nt" →
      (get_dataloader os_name type_path batch_size shuffle).num_workers = 2) := by
  constructor
  · intro h
    subst h
    rfl
  · intro h
    simp [get_dataloader, h]

/-- Witness for C10 at the two concrete platform names `nt` and `posix`. -/
theorem get_dataloader_num_workers_witness :
    (get_dataloader "nt" "train" 8 true).num_workers = 0 ∧
    (get_dataloader "posix" "train" 8 true).num_workers = 2 :=
  ⟨(get_dataloader_num_workers "nt" "train" 8 true).1 rfl,
   (get_dataloader_num_workers "posix" "train" 8 true).2 (by decide)⟩

/-- C5: during construction, exactly when the tokenizer's eos token id is
the reserved id 1, the initializer registers the explicit eos token
`[EOS]` on the tokenizer and resizes the model's token-embedding table to
the new tokenizer length; when the ids do not collide the tokenizer and
the embedding table are left unchanged. -/
theorem eosFix_iff_collision
    (add_special_tokens : Tokenizer → String → Tokenizer) (st : InitState) :
    (st.tokenizer.eos_token_id = 1 →
      eosFix add_special_tokens st =
        ⟨add_special_tokens st.tokenizer "[EOS]",
         ⟨(add_special_tokens st.tokenizer "[EOS]").length⟩⟩) ∧
    (st.tokenizer.eos_token_id ≠ 1 →
      eosFix add_special_tokens st = st) := by
  constructor
  · intro h
    simp [eosFix, h]
  · intro h
    simp [eosFix, h]

/-- Witness for C5: a colliding tokenizer (eos id 1) gets `[EOS]`
registered and the embedding table resized to the grown length; a
non-colliding one (eos id 2) is untouched. -/
theorem eosFix_iff_collision_witness :
    eosFix (fun tok t => ⟨2, t, tok.length + 1⟩)
        ⟨⟨1, "</s>", 32100⟩, ⟨32100⟩⟩ =
      ⟨⟨2, "[EOS]", 32101⟩, ⟨32101⟩⟩ ∧
    eosFix (fun tok t => ⟨2, t, tok.length + 1⟩)
        ⟨⟨2, "</s>", 32100⟩, ⟨32128⟩⟩ =
      ⟨⟨2, "</s>", 32100⟩, ⟨32128⟩⟩ :=
  ⟨(eosFix_iff_collision (fun tok t => ⟨2, t, tok.length + 1⟩)
      ⟨⟨1, "</s>", 32100⟩, ⟨32100⟩⟩).1 rfl,
   (eosFix_iff_collision (fun tok t => ⟨2, t, tok.length + 1⟩)
      ⟨⟨2, "</s>", 32100⟩, ⟨32128⟩⟩).2 (by decide)⟩

/-- C2: for a target row `[t0, t1, …, tn, pad, pad]` none of whose real
tokens equals the pad id, the loss step feeds the model the label sequence
`[t1, …, tn, -100, -100]` (the target shifted left by one with every pad
position replaced by `-100`) and the decoder-input sequence
`[t0, …, tn, pad]` (the target with its last token dropped); both have
length `len(target) - 1`. The forward function used here records exactly
the `decoder_input_ids` and `lm_labels` tensors `_step` passes to the
model. -/
theorem step_label_construction (pad t0 : Int) (rest : List Int)
    (hrest : ∀ t ∈ rest, t ≠ pad) (src mask : List (List Int)) :
    _step (fun _ _ y_ids lm_labels => (y_ids, lm_labels)) pad
        ⟨src, mask, [t0 :: (rest ++ [pad, pad])]⟩ =
      [([t0 :: (rest ++ [pad])], [rest ++ [-100, -100]])] ∧
    (rest ++ [(-100 : Int), -100]).length =
      (t0 :: (rest ++ [pad, pad])).length - 1 ∧
    (t0 :: (rest ++ [pad])).length =
      (t0 :: (rest ++ [pad, pad])).length - 1 := by
  refine ⟨?_, by simp, by simp⟩
  have hdl : (t0 :: (rest ++ [pad, pad])).dropLast =
      t0 :: (rest ++ [pad]) := by
    have h : t0 :: (rest ++ [pad, pad]) =
        (t0 :: (rest ++ [pad])) ++ [pad] := by simp
    rw [h, List.dropLast_concat]
  have hlb : (rest ++ [pad, pad]).map
        (fun x => if x = pad then (-100 : Int) else x) =
      rest ++ [-100, -100] := by
    rw [List.map_append]
    refine congrArg₂ (· ++ ·) ?_ (by simp)
    conv_rhs => rw [← List.map_id rest]
    exact List.map_congr_left (fun t ht => by simp [hrest t ht])
  simp only [_step, maskedFill_eqMask, List.map_cons, List.map_nil]
  simp [hdl, hlb]

/-- Witness for C2: target row `[3, 4, 5, 0, 0]` with pad id 0 produces
labels `[4, 5, -100, -100]` and decoder inputs `[3, 4, 5, 0]`. -/
theorem step_label_construction_witness :
    _step (fun _ _ y_ids lm_labels => (y_ids, lm_labels)) 0
        ⟨[], [], [[3, 4, 5, 0, 0]]⟩ =
      [([[3, 4, 5, 0]], [[4, 5, -100, -100]])] :=
  (step_label_construction 0 3 [4, 5] (by decide) [] []).1

/-- C3: the record `test_step` returns has exactly the keys `val_loss`,
`preds`, `target`; the record `validation_step` returns has the keys
`loss`, `summ_len`, `preds`, `target` followed by `rouge1`, `rouge2`,
`rougeL` (the rouge entries are absent exactly when the zip of decoded
references and predictions is empty, where the aggregator's result dict is
empty); and neither record ever contains any of the keys `n_correct_pred`,
`n_pred`, `test_loss` that `validation_epoch_end` / `test_epoch_end`
read. -/
theorem step_record_keys (E : Externals) (batch : Batch) (batch_idx : Nat) :
    (test_step E batch batch_idx).map Prod.fst =
      ["val_loss", "preds", "target"] ∧
    ((validation_step E batch batch_idx).map Prod.fst =
      ["loss", "summ_len", "preds", "target",
       "rouge1", "rouge2", "rougeL"] ∨
     (validation_step E batch batch_idx).map Prod.fst =
      ["loss", "summ_len", "preds", "target"]) ∧
    "n_correct_pred" ∉ (validation_step E batch batch_idx).map Prod.fst ∧
    "n_pred" ∉ (validation_step E batch batch_idx).map Prod.fst ∧
    "test_loss" ∉ (validation_step E batch batch_idx).map Prod.fst ∧
    "n_correct_pred" ∉ (test_step E batch batch_idx).map Prod.fst ∧
    "n_pred" ∉ (test_step E batch batch_idx).map Prod.fst ∧
    "test_loss" ∉ (test_step E batch batch_idx).map Prod.fst := by
  have hvg : validation_step E batch batch_idx = _generative_step E batch :=
    rfl
  have ht : (test_step E batch batch_idx).map Prod.fst =
      ["val_loss", "preds", "target"] := rfl
  rcases generative_step_record_cases E batch with ⟨q1, q2, q3, hrec⟩ | hrec
  · have hv : (validation_step E batch batch_idx).map Prod.fst =
        ["loss", "summ_len", "preds", "target",
         "rouge1", "rouge2", "rougeL"] := by
      rw [hvg, hrec]; rfl
    exact ⟨ht, Or.inl hv, by rw [hv]; decide, by rw [hv]; decide,
      by rw [hv]; decide, by rw [ht]; decide, by rw [ht]; decide,
      by rw [ht]; decide⟩
  · have hv : (validation_step E batch batch_idx).map Prod.fst =
        ["loss", "summ_len", "preds", "target"] := by
      rw [hvg, hrec]; rfl
    exact ⟨ht, Or.inr hv, by rw [hv]; decide, by rw [hv]; decide,
      by rw [hv]; decide, by rw [ht]; decide, by rw [ht]; decide,
      by rw [ht]; decide⟩

/-- C4: the `loss` entry of the record the evaluation step
(`_generative_step`) returns is exactly the loss `_step` computes on the
same untrimmed batch — the same scalar that `training_step` stores under
its own `loss` key. -/
theorem eval_loss_eq_training_loss (E : Externals) (batch : Batch)
    (batch_idx : Nat) :
    (_generative_step E batch).lookup "loss" =
      ((_step E.forward E.pad_token_id batch).get? 0).map PyVal.num ∧
    ∃ r, training_step E.forward E.pad_token_id batch batch_idx = some r ∧
      r.lookup "loss" =
        ((_step E.forward E.pad_token_id batch).get? 0).map
          TrainVal.scalar := by
  refine ⟨?_, ⟨_, rfl, rfl⟩⟩
  rcases generative_step_record_cases E batch with ⟨q1, q2, q3, hrec⟩ | hrec <;>
    (rw [hrec]; rfl)

/-- C7: the `summ_len` entry of the evaluation record is the arithmetic
mean of the per-example generated-sequence lengths: the reported value
times the number of generated sequences equals the total of their lengths.
The nonemptiness hypothesis restricts the statement to the domain where
NumPy's mean is a number (on an empty array it is NaN). -/
theorem summ_len_is_mean_generated_length (E : Externals) (batch : Batch)
    (batch_idx : Nat)
    (h : E.generate (E.trim batch E.pad_token_id).1
        (E.trim batch E.pad_token_id).2.1 ≠ []) :
    ∃ m : Rat,
      (validation_step E batch batch_idx).lookup "summ_len" =
        some (PyVal.num m) ∧
      m * ((E.generate (E.trim batch E.pad_token_id).1
            (E.trim batch E.pad_token_id).2.1).length : Rat) =
        ((E.generate (E.trim batch E.pad_token_id).1
            (E.trim batch E.pad_token_id).2.1).map
          (fun g => ((g.length : Int) : Rat))).sum := by
  refine ⟨npMean (lmap (fun g => ((g.length : Int) : Rat))
    (E.generate (E.trim batch E.pad_token_id).1
      (E.trim batch E.pad_token_id).2.1)), ?_, ?_⟩
  · have hvg : validation_step E batch batch_idx = _generative_step E batch :=
      rfl
    rcases generative_step_record_cases E batch with ⟨q1, q2, q3, hrec⟩ | hrec <;>
      (rw [hvg, hrec]; rfl)
  · have hne : ((E.generate (E.trim batch E.pad_token_id).1
        (E.trim batch E.pad_token_id).2.1).length : Rat) ≠ 0 := by
      exact_mod_cast fun hc => h (List.length_eq_zero.mp hc)
    simp only [npMean, lmap, List.length_map]
    exact div_mul_cancel₀ _ hne

/-- Witness for C7: for a batch whose generated sequences have lengths
`[5, 7, 9]`, the reported `summ_len` satisfies `m * 3 = 5 + 7 + 9`, and
the mean of `[5, 7, 9]` is `7`. -/
theorem summ_len_is_mean_generated_length_witness :
    (∃ m : Rat,
      (validation_step witnessExternals ⟨[[1]], [[1]], [[1, 1]]⟩ 0).lookup
          "summ_len" = some (PyVal.num m) ∧
      m * ((witnessExternals.generate
            (witnessExternals.trim ⟨[[1]], [[1]], [[1, 1]]⟩
              witnessExternals.pad_token_id).1
            (witnessExternals.trim ⟨[[1]], [[1]], [[1, 1]]⟩
              witnessExternals.pad_token_id).2.1).length : Rat) =
        ((witnessExternals.generate
            (witnessExternals.trim ⟨[[1]], [[1]], [[1, 1]]⟩
              witnessExternals.pad_token_id).1
            (witnessExternals.trim ⟨[[1]], [[1]], [[1, 1]]⟩
              witnessExternals.pad_token_id).2.1).map
          (fun g => ((g.length : Int) : Rat))).sum) ∧
    npMean [5, 7, 9] = 7 :=
  ⟨summ_len_is_mean_generated_length witnessExternals ⟨[[1]], [[1]], [[1, 1]]⟩
      0 (by decide),
   by
    simp [npMean, List.sum_cons, List.sum_nil]
    norm_num⟩

/-- Counterexample to C1 as stated: at the concrete mismatched input
`outputs = ["a", "b"]`, `references = ["a"]`, `calculate_rouge` raises
nothing and returns a normal three-key score mapping — `zip` silently
drops the unmatched output. -/
theorem calculate_rouge_no_length_check :
    calculate_rouge witnessExternals.score witnessExternals.aggregate
        ["a", "b"] ["a"] =
      [("rouge1", (0 : Rat)), ("rouge2", 0), ("rougeL", 0)] ∧
    (["a", "b"] : List String).length ≠ (["a"] : List String).length := by
  exact ⟨rfl, by decide⟩

/-- C1 amended: `calculate_rouge` does not enforce the length
precondition and never raises. For every pair of string lists — mismatched
lengths included — it returns normally: its result equals the mapping
computed on the inputs truncated to the common minimum length (Python's
`zip` stops at the shorter list); when both lists are nonempty the mapping
has exactly the keys of `ROUGE_KEYS`, and when either list is empty no
pair is ever scored and the returned mapping is empty. -/
theorem calculate_rouge_truncates (score : String → String → ScoreTriple)
    (aggregate : List ScoreTriple → AggTriple)
    (outputs references : List String) :
    calculate_rouge score aggregate outputs references =
      calculate_rouge score aggregate
        (outputs.take references.length)
        (references.take outputs.length) ∧
    (outputs ≠ [] → references ≠ [] →
      (calculate_rouge score aggregate outputs references).map Prod.fst =
        ROUGE_KEYS) ∧
    (outputs = [] ∨ references = [] →
      calculate_rouge score aggregate outputs references = []) := by
  refine ⟨?_, ?_, ?_⟩
  · simp only [calculate_rouge]
    rw [← zip_eq_zip_take]
  · intro ho hr
    rcases outputs with _ | ⟨o, os⟩
    · exact absurd rfl ho
    rcases references with _ | ⟨r, rs⟩
    · exact absurd rfl hr
    simp [calculate_rouge, ROUGE_KEYS]
  · intro h
    rcases h with h | h <;> subst h <;> simp [calculate_rouge]

/-- Witness for C1's amended claim: at the mismatched input
`(["a", "b"], ["a"])` the call returns a mapping with the three rouge
keys, and with an empty reference list it returns the empty mapping. -/
theorem calculate_rouge_truncates_witness :
    (calculate_rouge witnessExternals.score witnessExternals.aggregate
        ["a", "b"] ["a"]).map Prod.fst = ROUGE_KEYS ∧
    calculate_rouge witnessExternals.score witnessExternals.aggregate
        ["a", "b"] [] = [] :=
  ⟨(calculate_rouge_truncates witnessExternals.score
      witnessExternals.aggregate ["a", "b"] ["a"]).2.1
      (by decide) (by decide),
   (calculate_rouge_truncates witnessExternals.score
      witnessExternals.aggregate ["a", "b"] []).2.2 (Or.inr rfl)⟩

/-- C6: for equal-length outputs and references and any permutation of
their indices applied to both, `calculate_rouge` reports the same mapping,
provided the external aggregator depends only on the multiset of added
per-pair scores (the spec's reading of the bootstrap aggregation as
rank/interval based, not example-ordered): the glue feeds the aggregator a
permutation of the same per-pair scores. -/
theorem calculate_rouge_perm_invariant
    (score : String → String → ScoreTriple)
    (aggregate : List ScoreTriple → AggTriple)
    (hagg : ∀ s1 s2 : List ScoreTriple, s1.Perm s2 →
      aggregate s1 = aggregate s2)
    (outputs references : List String) (p : List Nat)
    (hlen : outputs.length = references.length)
    (hp : p.Perm (List.range references.length)) :
    calculate_rouge score aggregate (applyPerm p "" outputs)
        (applyPerm p "" references) =
      calculate_rouge score aggregate outputs references := by
  have key : ((applyPerm p "" references).zip (applyPerm p "" outputs)).map
        (fun pr => score pr.1 pr.2) =
      p.map (fun i => score (references.getD i "") (outputs.getD i "")) := by
    simp only [applyPerm]
    rw [List.zip_map', List.map_map]
    rfl
  have key2 : (List.range references.length).map
        (fun i => score (references.getD i "") (outputs.getD i "")) =
      (references.zip outputs).map (fun pr => score pr.1 pr.2) :=
    range_map_getD_zip score "" "" references.length references outputs
      rfl hlen
  have hperm : (((applyPerm p "" references).zip
        (applyPerm p "" outputs)).map (fun pr => score pr.1 pr.2)).Perm
      ((references.zip outputs).map (fun pr => score pr.1 pr.2)) := by
    rw [key, ← key2]
    exact hp.map _
  have hval := hagg _ _ hperm
  simp only [calculate_rouge, perm_isEmpty hperm, hval]

/-- The aggregator sumAgg is invariant under permutations of the added scores. -/
theorem sumAgg_perm (s1 s2 : List ScoreTriple) (h : s1.Perm s2) :
    sumAgg s1 = sumAgg s2 := by
  simp only [sumAgg]
  rw [(h.map _).sum_eq]

/-- Witness for C6: swapping the two aligned pairs with the permutation
`[1, 0]` leaves the reported mapping unchanged, for a scorer that
distinguishes the pairs and an order-insensitive aggregator. -/
theorem calculate_rouge_perm_invariant_witness :
    calculate_rouge lenScore sumAgg (applyPerm [1, 0] "" ["ab", "c"])
        (applyPerm [1, 0] "" ["de", "f"]) =
      calculate_rouge lenScore sumAgg ["ab", "c"] ["de", "f"] :=
  calculate_rouge_perm_invariant lenScore sumAgg sumAgg_perm
    ["ab", "c"] ["de", "f"] [1, 0] rfl (by decide)

/-- C8: the loss step mutates neither `source_ids` nor `source_mask` nor
`target_ids`: the pad-to-`-100` masking writes into the cell freshly
allocated by `.clone()`, never into a cell of the batch. The last
conjunct ties the store semantics back to the pure `_step`: the loss value
is the one `_step` computes on the batch read from the store. -/
theorem step_no_batch_mutation {L : Type}
    (forward : List (List Int) → List (List Int) → List (List Int) →
      List (List Int) → L)
    (pad : Int) (st : Store) (b : BatchRef)
    (hs : b.source_ids < st.cells.length)
    (hm : b.source_mask < st.cells.length)
    (ht : b.target_ids < st.cells.length) :
    ((_stepStore forward pad st b).2).read b.source_ids =
      st.read b.source_ids ∧
    ((_stepStore forward pad st b).2).read b.source_mask =
      st.read b.source_mask ∧
    ((_stepStore forward pad st b).2).read b.target_ids =
      st.read b.target_ids ∧
    (_stepStore forward pad st b).1 ∈
      _step forward pad
        ⟨st.read b.source_ids, st.read b.source_mask,
         st.read b.target_ids⟩ := by
  have hgen : ∀ r, r < st.cells.length →
      ((_stepStore forward pad st b).2).read r = st.read r := by
    intro r hr
    simp only [_stepStore, Store.alloc, Store.write, Store.read]
    exact getD_set_append_lt _ _ _ _ _ _ hr
  refine ⟨hgen _ hs, hgen _ hm, hgen _ ht, ?_⟩
  simp only [_stepStore, Store.alloc, Store.write, Store.read, _step,
    List.mem_singleton]
  rw [getD_set_append_lt _ _ _ _ _ _ hs, getD_set_append_lt _ _ _ _ _ _ hm,
    getD_set_append_mid, getD_set_append_last, getD_append_self2]

/-- Witness for C8: on a concrete three-cell store holding the batch, the
loss step leaves all three batch tensors unchanged, and its loss agrees
with the pure `_step`. -/
theorem step_no_batch_mutation_witness :
    ((_stepStore (fun _ _ _ _ => (0 : Rat)) 0
        ⟨[[[1, 2]], [[1, 1]], [[3, 4, 0]]]⟩ ⟨0, 1, 2⟩).2).read 0 =
      [[1, 2]] ∧
    ((_stepStore (fun _ _ _ _ => (0 : Rat)) 0
        ⟨[[[1, 2]], [[1, 1]], [[3, 4, 0]]]⟩ ⟨0, 1, 2⟩).2).read 1 =
      [[1, 1]] ∧
    ((_stepStore (fun _ _ _ _ => (0 : Rat)) 0
        ⟨[[[1, 2]], [[1, 1]], [[3, 4, 0]]]⟩ ⟨0, 1, 2⟩).2).read 2 =
      [[3, 4, 0]] ∧
    (_stepStore (fun _ _ _ _ => (0 : Rat)) 0
        ⟨[[[1, 2]], [[1, 1]], [[3, 4, 0]]]⟩ ⟨0, 1, 2⟩).1 ∈
      _step (fun _ _ _ _ => (0 : Rat)) 0
        ⟨[[1, 2]], [[1, 1]], [[3, 4, 0]]⟩ :=
  step_no_batch_mutation (fun _ _ _ _ => (0 : Rat)) 0
    ⟨[[[1, 2]], [[1, 1]], [[3, 4, 0]]]⟩ ⟨0, 1, 2⟩
    (by decide) (by decide) (by decide)

